import Mathlib

/-!
Shallow embedding of `src/app.py` (the Globalize Streamlit app).

Pure helper functions of the app are translated directly; the external
backends (language detection, remote translation, speech synthesis,
tokenization, the pycountry catalog) are modelled as explicit parameters
or as request records, so the orchestration logic of the app itself is
what the theorems speak about.  The `googletrans` constant `LANGUAGES`
is embedded as concrete data.
-/

/-- Model of Python `str.title` (per character: uppercase an alphabetic
character that follows a non-alphabetic one, lowercase the rest). -/
def pyTitleAux (prevCased : Bool) : List Char → List Char
  | [] => []
  | c :: cs =>
    if c.isAlpha then
      (if prevCased then c.toLower else c.toUpper) :: pyTitleAux true cs
    else
      c :: pyTitleAux false cs

/-- Python `s.title()`. -/
def pyTitle (s : String) : String := String.mk (pyTitleAux false s.data)

/-- Python `s.lower()`. -/
def pyLower (s : String) : String := String.mk (s.data.map Char.toLower)

/-- Python `s.strip()` (whitespace trimmed from both ends). -/
def pyStrip (s : String) : String :=
  String.mk (((s.data.dropWhile Char.isWhitespace).reverse.dropWhile Char.isWhitespace).reverse)

/-- Python `w.isalpha()`: non-empty and every character alphabetic. -/
def pyIsAlpha (w : String) : Bool := !(w.data.isEmpty) && w.data.all Char.isAlpha

/-- Python `sep.join(parts)`. -/
def pyJoin (sep : String) : List String → String
  | [] => ""
  | [s] => s
  | s :: rest => s ++ sep ++ pyJoin sep rest

/-- The `googletrans.LANGUAGES` constant (code, lowercase name), in its
source order. -/
def LANGUAGES : List (String × String) :=
  [("af", "afrikaans"), ("sq", "albanian"), ("am", "amharic"), ("ar", "arabic"),
   ("hy", "armenian"), ("az", "azerbaijani"), ("eu", "basque"), ("be", "belarusian"),
   ("bn", "bengali"), ("bs", "bosnian"), ("bg", "bulgarian"), ("ca", "catalan"),
   ("ceb", "cebuano"), ("ny", "chichewa"), ("zh-cn", "chinese (simplified)"),
   ("zh-tw", "chinese (traditional)"), ("co", "corsican"), ("hr", "croatian"),
   ("cs", "czech"), ("da", "danish"), ("nl", "dutch"), ("en", "english"),
   ("eo", "esperanto"), ("et", "estonian"), ("tl", "filipino"), ("fi", "finnish"),
   ("fr", "french"), ("fy", "frisian"), ("gl", "galician"), ("ka", "georgian"),
   ("de", "german"), ("el", "greek"), ("gu", "gujarati"), ("ht", "haitian creole"),
   ("ha", "hausa"), ("haw", "hawaiian"), ("iw", "hebrew"), ("he", "hebrew"),
   ("hi", "hindi"), ("hmn", "hmong"), ("hu", "hungarian"), ("is", "icelandic"),
   ("ig", "igbo"), ("id", "indonesian"), ("ga", "irish"), ("it", "italian"),
   ("ja", "japanese"), ("jw", "javanese"), ("kn", "kannada"), ("kk", "kazakh"),
   ("km", "khmer"), ("ko", "korean"), ("ku", "kurdish (kurmanji)"), ("ky", "kyrgyz"),
   ("lo", "lao"), ("la", "latin"), ("lv", "latvian"), ("lt", "lithuanian"),
   ("lb", "luxembourgish"), ("mk", "macedonian"), ("mg", "malagasy"), ("ms", "malay"),
   ("ml", "malayalam"), ("mt", "maltese"), ("mi", "maori"), ("mr", "marathi"),
   ("mn", "mongolian"), ("my", "myanmar (burmese)"), ("ne", "nepali"),
   ("no", "norwegian"), ("or", "odia"), ("ps", "pashto"), ("fa", "persian"),
   ("pl", "polish"), ("pt", "portuguese"), ("pa", "punjabi"), ("ro", "romanian"),
   ("ru", "russian"), ("sm", "samoan"), ("gd", "scots gaelic"), ("sr", "serbian"),
   ("st", "sesotho"), ("sn", "shona"), ("sd", "sindhi"), ("si", "sinhala"),
   ("sk", "slovak"), ("sl", "slovenian"), ("so", "somali"), ("es", "spanish"),
   ("su", "sundanese"), ("sw", "swahili"), ("sv", "swedish"), ("tg", "tajik"),
   ("ta", "tamil"), ("te", "telugu"), ("th", "thai"), ("tr", "turkish"),
   ("uk", "ukrainian"), ("ur", "urdu"), ("ug", "uyghur"), ("uz", "uzbek"),
   ("vi", "vietnamese"), ("cy", "welsh"), ("xh", "xhosa"), ("yi", "yiddish"),
   ("yo", "yoruba"), ("zu", "zulu")]

/-- Python `LANGUAGES.get(code)`: `none` when the key is absent. -/
def LANGUAGES_get (code : String) : Option String := LANGUAGES.lookup code

/-- `get_language_name` from `app.py`.  The pycountry catalog lookup
(`pycountry.languages.get(alpha_2=code)` followed by reading the `name`
attribute) is modelled by the parameter `pyc`; `none` covers both a
missing entry and a raised exception, which the source swallows. -/
def get_language_name (pyc : String → Option String) (code : String) : String :=
  let fromPycountry : Option String :=
    if code ≠ "" ∧ code.length = 2 then
      match pyc code with
      | some n => if n ≠ "" then some n else none
      | none => none
    else none
  match fromPycountry with
  | some n => n
  | none => pyTitle ((LANGUAGES_get code).getD code)

/-- `normalize_gtts_code` from `app.py`.  Python `code.split("-")[0]` is
the prefix of the string before its first hyphen. -/
def normalize_gtts_code (code : String) : String :=
  if code = "" then "en"
  else
    let gtts_code :=
      if code.data.contains '-' then String.mk (code.data.takeWhile (fun c => c != '-'))
      else code
    if gtts_code = "iw" then "he"
    else if gtts_code = "in" then "id"
    else gtts_code

/-- The spec wording of the synthesizer-code normalization, written from
section 4.1 of the spec: empty input defaults to "en"; any region suffix
after a hyphen is stripped; legacy "iw" remaps to "he" and "in" to "id";
everything else passes through unchanged. -/
def synthesizerCode_spec (code : String) : String :=
  if code = "" then "en"
  else
    let stripped := String.mk (code.data.takeWhile (fun c => c != '-'))
    if stripped = "iw" then "he"
    else if stripped = "in" then "id"
    else stripped

/-- A record of the request `spell_text_audio_bytes` hands to `gTTS`:
the text to speak, the language code, and the speed flag. -/
structure TTSRequest where
  text : String
  lang : String
  slow : Bool
deriving DecidableEq

/-- `spell_text_audio_bytes` from `app.py`, modelled as the request it
builds for the speech backend (`gTTS(text=to_speak, lang=gtts_lang,
slow=True)`): the audio buffer itself is external.  The source also
builds a space-separated variant it never uses; it is kept here
unused for fidelity. -/
def spell_text_audio_bytes (word : String) (lang : String) : TTSRequest :=
  let _spaced := pyJoin " " (word.data.map (fun c => String.mk [c]))
  let dotted := pyJoin ", " (word.data.map (fun c => String.mk [c]))
  let to_speak := dotted
  let gtts_lang := normalize_gtts_code lang
  { text := to_speak, lang := gtts_lang, slow := true }

/-- The spec wording of the letter-by-letter rendering from section 4.4:
a comma-separated sequence of the letters of the word. -/
def commaSpelled : List Char → String
  | [] => ""
  | [c] => String.mk [c]
  | c :: cs => String.mk [c] ++ ", " ++ commaSpelled cs

/-- The figure produced by the word-cloud builder, modelled by the text
the external renderer is asked to lay out (`wc.generate(wc_text)`). -/
structure WordCloudFigure where
  wc_text : String
deriving DecidableEq

/-- `generate_wordcloud_figure` from `app.py`.  The NLTK tokenizer is the
parameter `tok` and the stopword list the parameter `stop` (the source
falls back to an empty set when the resource is missing, which `stop = []`
covers); the external renderer is modelled as total, so the only failure
is the explicit `raise ValueError` of the source. -/
def generate_wordcloud_figure (tok : String → List String) (stop : List String)
    (text : String) : Except String WordCloudFigure :=
  let tokens := tok (pyLower text)
  let filtered := tokens.filter (fun w => pyIsAlpha w && !(stop.contains w))
  if filtered.isEmpty then
    Except.error "No valid words to build a word cloud after filtering."
  else
    Except.ok { wc_text := pyJoin " " filtered }

/-- The entries of `display_map = {name.title(): code for code, name in
LANGUAGES.items()}` in insertion order (duplicate keys not yet collapsed). -/
def display_map_entries : List (String × String) :=
  LANGUAGES.map (fun p => (pyTitle p.2, p.1))

/-- `display_map.get(name)`: Python dict construction keeps the last
value written for a duplicate key, hence the reversed lookup. -/
def display_map_get (name : String) : Option String :=
  display_map_entries.reverse.lookup name

/-- `all_languages = sorted(display_map.keys())`: the distinct titled
names, sorted.  `List.dedup` keeps one copy per duplicated key, and the
sort makes the surviving order irrelevant. -/
def all_languages : List String :=
  List.insertionSort (fun a b => a ≤ b) (display_map_entries.map Prod.fst).dedup

/-- `default_selection = all_languages if select_all else ["English"]`. -/
def default_selection (select_all : Bool) : List String :=
  if select_all then all_languages else ["English"]

/-- One rendered UI event of the translate-and-read-aloud loop. -/
inductive RAEvent where
  | unknownSelection (name : String)
  | translationError (name : String)
  | renderText (name code text : String)
  | audioPlayed (lang : String)
  | audioWarning (lang : String)
deriving DecidableEq

/-- `read_aloud_streamlit` from `app.py`: tries the speech backend
(parameter `synth`, `true` = synthesis succeeded) and warns on failure;
it catches every exception itself. -/
def read_aloud_streamlit (synth : String → String → Bool) (text lang : String) : RAEvent :=
  if synth text lang then RAEvent.audioPlayed lang else RAEvent.audioWarning lang

/-- One iteration of the Translate & Read Aloud loop body (lines 215-235
of `app.py`): look up the code, translate (parameter `trans`, `none` =
the backend call raised), and when the translated text is truthy render
it and attempt audio. -/
def handle_language (trans : String → String → Option String)
    (synth : String → String → Bool) (paragraph name : String) : List RAEvent :=
  match display_map_get name with
  | none => [RAEvent.unknownSelection name]
  | some code =>
    match trans paragraph code with
    | none => [RAEvent.translationError name]
    | some t =>
      if t ≠ "" then
        [RAEvent.renderText name code t, read_aloud_streamlit synth t (normalize_gtts_code code)]
      else []

/-- The full per-language loop of the Translate & Read Aloud handler. -/
def translate_read_aloud_loop (trans : String → String → Option String)
    (synth : String → String → Bool) (paragraph : String) : List String → List RAEvent
  | [] => []
  | name :: rest =>
    handle_language trans synth paragraph name ++
      translate_read_aloud_loop trans synth paragraph rest

/-- Outcome of the Generate Word Cloud button handler. -/
inductive CloudOutcome where
  | promptInput
  | figure (f : WordCloudFigure)
  | renderError (msg : String)
deriving DecidableEq

/-- The Generate Word Cloud handler (lines 172-192 of `app.py`).
`detect_r` is the detection result (`none` = the call raised) and
`trans_en` the result of `translator.translate(paragraph, dest="en")`
(`none` = the call raised). -/
def generate_cloud_handler (detect_r : Option String) (trans_en : Option String)
    (tok : String → List String) (stop : List String) (paragraph : String) : CloudOutcome :=
  if pyStrip paragraph = "" then CloudOutcome.promptInput
  else
    let text_for_cloud :=
      match detect_r with
      | none => paragraph
      | some d =>
        if d ≠ "" && d ≠ "en" then
          match trans_en with
          | some t => t
          | none => paragraph
        else paragraph
    match generate_wordcloud_figure tok stop text_for_cloud with
    | Except.ok fig => CloudOutcome.figure fig
    | Except.error e => CloudOutcome.renderError ("Could not generate word cloud: " ++ e)

/-- Outcome of the Translate to English button handler. -/
inductive TEOutcome where
  | promptInput
  | translated (t : String)
  | alreadyEnglish (original : String)
  | translationFailed
deriving DecidableEq

/-- The Translate to English handler (lines 153-170 of `app.py`),
returning its outcome together with whether the remote translator was
invoked.  `detect_r` is the detection result (`none` = the call raised);
`trans_en` models `translator.translate(paragraph, dest="en").text`
(`none` = the call raised, surfaced as the inline translation error). -/
def translate_to_english_handler (detect_r : Option String) (trans_en : Option String)
    (p : String) : TEOutcome × Bool :=
  if pyStrip p = "" then (TEOutcome.promptInput, false)
  else
    let use_translator :=
      match detect_r with
      | none => false
      | some d => d ≠ "" && d ≠ "en"
    if use_translator then
      match trans_en with
      | some t => (TEOutcome.translated t, true)
      | none => (TEOutcome.translationFailed, true)
    else (TEOutcome.alreadyEnglish p, false)

/-! ### Helper lemmas -/

theorem string_mk_data (s : String) : String.mk s.data = s := by
  cases s
  rfl

theorem data_ne_nil_of_ne_empty (s : String) (h : s ≠ "") : s.data ≠ [] := by
  intro hd
  apply h
  have := congrArg String.mk hd
  simpa [string_mk_data] using this

theorem mk_ne_empty_of_ne_nil (l : List Char) (h : l ≠ []) : String.mk l ≠ "" := by
  intro he
  apply h
  simpa using congrArg String.data he

theorem pyTitleAux_ne_nil (b : Bool) (l : List Char) (h : l ≠ []) : pyTitleAux b l ≠ [] := by
  cases l with
  | nil => exact absurd rfl h
  | cons c cs =>
    simp only [pyTitleAux]
    split <;> simp

theorem pyTitle_ne_empty (s : String) (h : s ≠ "") : pyTitle s ≠ "" := by
  exact mk_ne_empty_of_ne_nil _ (pyTitleAux_ne_nil false s.data (data_ne_nil_of_ne_empty s h))

theorem takeWhile_hyphen_of_not_contains (l : List Char)
    (h : l.contains '-' = false) : l.takeWhile (fun c => c != '-') = l := by
  induction l with
  | nil => rfl
  | cons x xs ih =>
    simp only [List.contains_cons, Bool.or_eq_false_iff] at h
    have hx : x ≠ '-' := by
      intro hxe
      subst hxe
      simp at h
    have hx2 : (x != '-') = true := by simp [bne_iff_ne, hx]
    simp [List.takeWhile_cons, hx2, ih h.2]

theorem lookup_snd_prop {α β : Type} [BEq α] (P : β → Prop) (l : List (α × β))
    (hall : ∀ q ∈ l, P q.2) (a : α) (v : β) (h : l.lookup a = some v) : P v := by
  induction l with
  | nil => simp [List.lookup] at h
  | cons q qs ih =>
    obtain ⟨k, b⟩ := q
    rw [List.lookup] at h
    by_cases hk : a == k
    · simp [hk] at h
      exact h ▸ hall (k, b) (List.mem_cons_self _ _)
    · simp [hk] at h
      exact ih (fun p hp => hall p (List.mem_cons_of_mem _ hp)) h

theorem LANGUAGES_values_ne_empty : ∀ q ∈ LANGUAGES, q.2 ≠ "" := by decide

theorem pyJoin_comma (l : List Char) :
    pyJoin ", " (l.map (fun c => String.mk [c])) = commaSpelled l := by
  induction l with
  | nil => rfl
  | cons c cs ih =>
    cases cs with
    | nil => rfl
    | cons c2 cs2 =>
      have h1 : pyJoin ", " (String.mk [c] :: String.mk [c2] ::
            List.map (fun x => String.mk [x]) cs2)
          = String.mk [c] ++ ", " ++
              pyJoin ", " (String.mk [c2] :: List.map (fun x => String.mk [x]) cs2) := rfl
      have h2 : commaSpelled (c :: c2 :: cs2)
          = String.mk [c] ++ ", " ++ commaSpelled (c2 :: cs2) := rfl
      simp only [List.map_cons] at ih ⊢
      rw [h1, h2, ih]

theorem norm_eq_spec (c : String) : normalize_gtts_code c = synthesizerCode_spec c := by
  by_cases h : c = ""
  · simp [normalize_gtts_code, synthesizerCode_spec, h]
  · cases hc : c.data.contains '-' with
    | true =>
      have hm : '-' ∈ c.data := by simpa using hc
      simp [normalize_gtts_code, synthesizerCode_spec, h, hm]
    | false =>
      have hm : '-' ∉ c.data := by simpa using hc
      have ht := takeWhile_hyphen_of_not_contains c.data hc
      simp [normalize_gtts_code, synthesizerCode_spec, h, hm, ht, string_mk_data]

/-! ### Claim theorems -/

/-- C2: for every supported language code `c` (a key of the backend
catalog `LANGUAGES`), the synthesizer-code normalization is idempotent:
`normalize_gtts_code (normalize_gtts_code c) = normalize_gtts_code c`. -/
theorem spec_C2 : ∀ c ∈ LANGUAGES.map Prod.fst,
    normalize_gtts_code (normalize_gtts_code c) = normalize_gtts_code c := by decide

theorem spec_C2_witness : "zh-cn" ∈ LANGUAGES.map Prod.fst ∧
    normalize_gtts_code (normalize_gtts_code "zh-cn") = normalize_gtts_code "zh-cn" :=
  ⟨by decide, spec_C2 "zh-cn" (by decide)⟩

/-- C3: the synthesizer-code normalization applies, in order: empty input
maps to "en", any region suffix after a hyphen is stripped, legacy "iw"
maps to "he" and "in" to "id", and every other code passes through
unchanged (stated as agreement with `synthesizerCode_spec`, the rules as
worded by the spec); in particular the four quoted evaluations hold. -/
theorem spec_C3 :
    normalize_gtts_code "en-US" = "en"
    ∧ normalize_gtts_code "iw" = "he"
    ∧ normalize_gtts_code "in" = "id"
    ∧ normalize_gtts_code "" = "en"
    ∧ ∀ c : String, normalize_gtts_code c = synthesizerCode_spec c :=
  ⟨by decide, by decide, by decide, by decide, norm_eq_spec⟩

/-- C6: for every non-empty input code and every behavior of the
pycountry catalog, `get_language_name` is total (the embedding returns a
string on every input) and never returns the empty string. -/
theorem spec_C6 (pyc : String → Option String) (code : String) (h : code ≠ "") :
    get_language_name pyc code ≠ "" := by
  have hfall : pyTitle ((LANGUAGES_get code).getD code) ≠ "" := by
    rcases hl : LANGUAGES_get code with _ | v
    · simpa [hl] using pyTitle_ne_empty code h
    · have hv : v ≠ "" :=
        lookup_snd_prop (fun b => b ≠ "") LANGUAGES LANGUAGES_values_ne_empty code v hl
      simpa [hl] using pyTitle_ne_empty v hv
  by_cases hp : code ≠ "" ∧ code.length = 2
  · rcases hpy : pyc code with _ | n
    · simpa [get_language_name, hp, hpy] using hfall
    · by_cases hn : n = ""
      · simpa [get_language_name, hp, hpy, hn] using hfall
      · simp [get_language_name, hp, hpy, hn]
  · simpa [get_language_name, hp] using hfall

theorem spec_C6_witness : "en" ≠ "" ∧ get_language_name (fun _ => some "English") "en" ≠ "" :=
  ⟨by decide, spec_C6 (fun _ => some "English") "en" (by decide)⟩

/-- C7 counterexample: the code "zz" is found neither in the pycountry
catalog (modelled here by the lookup that returns nothing, as the real
catalog has no alpha-2 entry "zz") nor in the backend table `LANGUAGES`,
yet `get_language_name` does not echo it unchanged: it returns the
title-cased "Zz". -/
theorem spec_C7_counterexample :
    (fun _ : String => (none : Option String)) "zz" = none
    ∧ LANGUAGES_get "zz" = none
    ∧ get_language_name (fun _ => none) "zz" ≠ "zz"
    ∧ get_language_name (fun _ => none) "zz" = "Zz" := by
  refine ⟨rfl, by decide, by decide, by decide⟩

/-- C7 (amended): for every code found neither in the standards catalog
nor in the backend table, `get_language_name` returns the code with
Python title-casing applied (the source applies `.title()` to the
fallback), not necessarily the code itself unchanged. -/
theorem spec_C7 (pyc : String → Option String) (code : String)
    (h1 : pyc code = none) (h2 : LANGUAGES_get code = none) :
    get_language_name pyc code = pyTitle code := by
  by_cases hp : code ≠ "" ∧ code.length = 2
  · simp [get_language_name, hp, h1, h2]
  · simp [get_language_name, hp, h2]

theorem spec_C7_witness :
    get_language_name (fun _ => none) "zz" = pyTitle "zz" ∧ pyTitle "zz" = "Zz" :=
  ⟨spec_C7 (fun _ => none) "zz" rfl (by decide), by decide⟩

/-- C8: for every non-empty word, the spell-word synthesizer hands the
speech backend exactly the comma-separated letter-by-letter rendering of
the word and requests slow speed. -/
theorem spec_C8 (word lang : String) (_h : word ≠ "") :
    (spell_text_audio_bytes word lang).text = commaSpelled word.data
    ∧ (spell_text_audio_bytes word lang).slow = true :=
  ⟨pyJoin_comma word.data, rfl⟩

theorem spec_C8_witness :
    "cat" ≠ ""
    ∧ (spell_text_audio_bytes "cat" "en").text = "c, a, t"
    ∧ (spell_text_audio_bytes "cat" "en").slow = true := by
  have h := spec_C8 "cat" "en" (by decide)
  exact ⟨by decide, by rw [h.1]; rfl, h.2⟩

theorem translate_read_aloud_loop_append (trans : String → String → Option String)
    (synth : String → String → Bool) (p : String) (a b : List String) :
    translate_read_aloud_loop trans synth p (a ++ b)
      = translate_read_aloud_loop trans synth p a ++ translate_read_aloud_loop trans synth p b := by
  induction a with
  | nil => rfl
  | cons x xs ih => simp [translate_read_aloud_loop, ih]

/-- C1: in the Translate & Read Aloud loop, a translation-backend failure
for one selected language produces exactly the inline error for that
language and leaves the iterations over the languages before and after
it untouched, whatever the backend does on the other languages. -/
theorem spec_C1 (trans : String → String → Option String) (synth : String → String → Bool)
    (p : String) (pre post : List String) (bad bcode : String)
    (h1 : display_map_get bad = some bcode) (h2 : trans p bcode = none) :
    translate_read_aloud_loop trans synth p (pre ++ bad :: post)
      = translate_read_aloud_loop trans synth p pre
          ++ RAEvent.translationError bad :: translate_read_aloud_loop trans synth p post := by
  rw [translate_read_aloud_loop_append]
  congr 1
  simp [translate_read_aloud_loop, handle_language, h1, h2]

theorem spec_C1_witness :
    translate_read_aloud_loop (fun _ c => if c = "fr" then none else some "hola")
        (fun _ _ => true) "hi" (["Spanish"] ++ "French" :: ["German"])
      = translate_read_aloud_loop (fun _ c => if c = "fr" then none else some "hola")
            (fun _ _ => true) "hi" ["Spanish"]
          ++ RAEvent.translationError "French" ::
            translate_read_aloud_loop (fun _ c => if c = "fr" then none else some "hola")
              (fun _ _ => true) "hi" ["German"] :=
  spec_C1 (fun _ c => if c = "fr" then none else some "hola") (fun _ _ => true) "hi"
    ["Spanish"] ["German"] "French" "fr" (by decide) (by decide)

/-- C4: the word-cloud builder fails with the "no valid words" error
exactly when, after lower-casing and tokenizing the text, no alphabetic
non-stopword token remains; on any non-empty filtered token list it
returns a figure. -/
theorem spec_C4 (tok : String → List String) (stop : List String) (text : String) :
    (generate_wordcloud_figure tok stop text
        = Except.error "No valid words to build a word cloud after filtering."
      ↔ (tok (pyLower text)).filter (fun w => pyIsAlpha w && !(stop.contains w)) = [])
    ∧ ((tok (pyLower text)).filter (fun w => pyIsAlpha w && !(stop.contains w)) ≠ [] →
        generate_wordcloud_figure tok stop text
          = Except.ok (WordCloudFigure.mk (pyJoin " "
              ((tok (pyLower text)).filter (fun w => pyIsAlpha w && !(stop.contains w)))))) := by
  by_cases hf : (tok (pyLower text)).filter (fun w => pyIsAlpha w && !(stop.contains w)) = []
  · constructor
    · simp [generate_wordcloud_figure, hf]
    · intro hne
      exact absurd hf hne
  · have hne : ((tok (pyLower text)).filter
        (fun w => pyIsAlpha w && !(stop.contains w))).isEmpty = false := by
      simpa [List.isEmpty_iff] using hf
    constructor
    · simp [generate_wordcloud_figure, hne, hf]
    · intro _
      simp only [generate_wordcloud_figure]
      rw [hne]
      rfl

theorem spec_C4_witness :
    generate_wordcloud_figure (fun s => [s]) [] "hello" = Except.ok { wc_text := "hello" } := by
  have h := (spec_C4 (fun s => [s]) [] "hello").2 (by decide)
  rw [h]
  rfl

/-- C5: in the Generate Word Cloud handler, when detection returned a
non-English code and the translation call to English failed, the builder
runs on the original paragraph, and the outcome is exactly what building
on the original paragraph gives (an error only when the build itself
fails). -/
theorem spec_C5 (d : String) (tok : String → List String) (stop : List String) (p : String)
    (hp : pyStrip p ≠ "") (hd1 : d ≠ "") (hd2 : d ≠ "en") :
    generate_cloud_handler (some d) none tok stop p
      = match generate_wordcloud_figure tok stop p with
        | Except.ok fig => CloudOutcome.figure fig
        | Except.error e => CloudOutcome.renderError ("Could not generate word cloud: " ++ e) := by
  simp [generate_cloud_handler, hp, hd1, hd2]

theorem spec_C5_witness :
    generate_cloud_handler (some "fr") none (fun s => [s]) [] "bonjour"
      = CloudOutcome.figure { wc_text := "bonjour" } := by
  have h := spec_C5 "fr" (fun s => [s]) [] "bonjour" (by decide) (by decide) (by decide)
  rw [h]
  rfl

set_option maxRecDepth 8192 in
/-- C9: the unchecked "select all" toggle defaults the multi-select to
exactly ["English"]; the checked toggle defaults it to the full catalog
of display names (sorted, and containing precisely the title-cased names
of the backend catalog). -/
theorem spec_C9 :
    default_selection false = ["English"]
    ∧ List.Sorted (fun a b : String => a ≤ b) (default_selection true)
    ∧ (∀ name : String, name ∈ default_selection true ↔ name ∈ display_map_entries.map Prod.fst)
    ∧ "English" ∈ default_selection true := by
  refine ⟨rfl, ?_, ?_, ?_⟩
  · exact List.sorted_insertionSort (fun a b : String => a ≤ b)
      (display_map_entries.map Prod.fst).dedup
  · intro name
    exact ((List.perm_insertionSort (fun a b : String => a ≤ b)
      (display_map_entries.map Prod.fst).dedup).mem_iff).trans List.mem_dedup
  · exact (((List.perm_insertionSort (fun a b : String => a ≤ b)
      (display_map_entries.map Prod.fst).dedup).mem_iff).trans List.mem_dedup).mpr (by decide)

theorem spec_C9_witness :
    "English" ∈ default_selection true ↔ "English" ∈ display_map_entries.map Prod.fst :=
  spec_C9.2.2.1 "English"

/-- C10: in the Translate to English handler on non-empty input, a
detection failure or a detected "en" yields the already-English message
with the original paragraph and no translator call; the translator is
invoked exactly when detection succeeded with a truthy code other than
"en". -/
theorem spec_C10 (detect_r : Option String) (trans_en : Option String) (p : String)
    (hp : pyStrip p ≠ "") :
    ((detect_r = none ∨ detect_r = some "en") →
        translate_to_english_handler detect_r trans_en p = (TEOutcome.alreadyEnglish p, false))
    ∧ ((translate_to_english_handler detect_r trans_en p).2 = true
        ↔ ∃ d, detect_r = some d ∧ d ≠ "" ∧ d ≠ "en") := by
  constructor
  · rintro (h | h) <;> subst h <;> simp [translate_to_english_handler, hp]
  · rcases detect_r with _ | d
    · simp [translate_to_english_handler, hp]
    · by_cases hd1 : d = ""
      · simp [translate_to_english_handler, hp, hd1]
      · by_cases hd2 : d = "en"
        · simp [translate_to_english_handler, hp, hd1, hd2]
        · rcases trans_en with _ | t <;>
            simp [translate_to_english_handler, hp, hd1, hd2]

theorem spec_C10_witness :
    translate_to_english_handler (some "en") none "bonjour"
      = (TEOutcome.alreadyEnglish "bonjour", false) :=
  (spec_C10 (some "en") none "bonjour" (by decide)).1 (Or.inr rfl)
